import Mathlib

/-!
Verification of the f451-enviro repository (Pimoroni Enviro+ HAT wrapper).

We give a shallow embedding of the data-handling and display-geometry
logic of src/f451_enviro/enviro.py and src/f451_enviro/enviro_data.py.
Python floats are modelled as rationals, Python None as Option.none,
Python int() truncation and round() half-even rounding explicitly.
-/

namespace F451Enviro

/-- Python truthiness of an optional number: None, 0 and 0.0 are falsy. -/
def pyTruthy : Option ℚ → Bool
  | none => false
  | some q => q != 0

/-- Python int() on a rational value: truncation toward zero. -/
def pyInt (q : ℚ) : ℤ :=
  if 0 ≤ q then ⌊q⌋ else ⌈q⌉

/-- The DataUnit named tuple from enviro_data.py: fields data, valid, unit,
label, limits. Samples may be None; the valid range is an optional pair of
optional endpoints. -/
structure DataUnit where
  data : List (Option ℚ)
  valid : Option (Option ℚ × Option ℚ)
  unit : String
  label : String
  limits : List ℚ

/-- The local helper from prep_data in enviro.py. Returns allowNone
when valid is None or some element of valid is falsy (Python not all(valid));
returns False when val is None or no element of valid is truthy; otherwise
checks each non-None endpoint of the range. -/
def is_valid (val : Option ℚ) (validRange : Option (Option ℚ × Option ℚ))
    (allowNone : Bool) : Bool :=
  match validRange with
  | none => allowNone
  | some vr =>
    if !(pyTruthy vr.1 && pyTruthy vr.2) then allowNone
    else
      match val with
      | none => false
      | some v =>
        if pyTruthy vr.1 || pyTruthy vr.2 then
          (match vr.1 with
           | none => true
           | some lo => decide (lo ≤ v)) &&
          (match vr.2 with
           | none => true
           | some hi => decide (v ≤ hi))
        else false

/-- Python slicing list(inData.data)[-lenSlice:] as used in prep_data: with
lenSlice = 0 this is the whole list (since -0 == 0 and xs[0:] is xs), and
with positive lenSlice the last lenSlice elements (all of them when the list
is shorter). -/
def lastSlice (xs : List (Option ℚ)) (lenSlice : ℕ) : List (Option ℚ) :=
  if lenSlice = 0 then xs else xs.drop (xs.length - lenSlice)

/-- One element of the filtering comprehension in prep_data:
i if is_valid(i, inData.valid) else 0. -/
def scrubElem (validRange : Option (Option ℚ × Option ℚ)) (i : Option ℚ) :
    Option ℚ :=
  if is_valid i validRange true then i else some 0

/-- prep_data from enviro.py: slice the data, replace samples that fail
is_valid with 0, and return a new DataUnit carrying the other fields over. -/
def prep_data (inData : DataUnit) (lenSlice : ℕ) : DataUnit :=
  let dataSlice := lastSlice inData.data lenSlice
  let dataClean := dataSlice.map (scrubElem inData.valid)
  { data := dataClean
    valid := inData.valid
    unit := inData.unit
    label := inData.label
    limits := inData.limits }

theorem prep_data_data_eq (d : DataUnit) (n : ℕ) :
    (prep_data d n).data = (lastSlice d.data n).map (scrubElem d.valid) := rfl

theorem get_map_eq {α β : Type} (f : α → β) (l : List α) (i : ℕ)
    (h : i < (l.map f).length) (h2 : i < l.length) :
    (l.map f).get ⟨i, h⟩ = f (l.get ⟨i, h2⟩) := by
  simp [List.get_eq_getElem, List.getElem_map]

theorem is_valid_of_in_range (lo hi v : ℚ) (h1 : lo ≤ v) (h2 : v ≤ hi) :
    is_valid (some v) (some (some lo, some hi)) true = true := by
  unfold is_valid
  cases hl : pyTruthy (some lo) <;> cases hh : pyTruthy (some hi) <;>
    simp [hl, hh, h1, h2]

/-- C1: the code at the failing input. The temperature series has the valid
range (0, 65), which is not None, and the sample -10 is strictly below the
lower endpoint 0. The spec asks that the scrubbing step replace such a sample
with 0, but prep_data keeps it: the guard not all(valid) in the local helper
is truthiness-based, so the falsy endpoint 0 makes the range check be skipped
and the out-of-range sample survive in the returned data list. -/
theorem C1_code_bug_eval :
    (prep_data ⟨[some (-10)], some (some 0, some 65), "C", "Temperature",
        [4, 18, 25, 35]⟩ 0).data = [some (-10)] ∧
    (-10 : ℚ) < 0 ∧
    (prep_data ⟨[some (-10)], some (some 0, some 65), "C", "Temperature",
        [4, 18, 25, 35]⟩ 0).data ≠ [some 0] := by
  refine ⟨by decide, by decide, by decide⟩

/-- C3: the scrubbing step is the identity on in-range samples. For every
DataUnit whose valid field is a pair of concrete endpoints, every sample of
the sliced data that lies within the range (valid[0] <= value <= valid[1])
appears unchanged at the same position of the data list returned by
prep_data. -/
theorem C3_prep_data_identity_in_range (d : DataUnit) (n i : ℕ) (lo hi v : ℚ)
    (hvr : d.valid = some (some lo, some hi))
    (hilt : i < (lastSlice d.data n).length)
    (hval : (lastSlice d.data n).get ⟨i, hilt⟩ = some v)
    (h1 : lo ≤ v) (h2 : v ≤ hi) :
    ∃ h2 : i < (prep_data d n).data.length,
      (prep_data d n).data.get ⟨i, h2⟩ = some v := by
  have hlen : (prep_data d n).data.length = (lastSlice d.data n).length := by
    rw [prep_data_data_eq]; exact List.length_map _ _
  have hlen2 : ((lastSlice d.data n).map (scrubElem d.valid)).length
      = (lastSlice d.data n).length := List.length_map _ _
  refine ⟨by omega, ?_⟩
  show ((lastSlice d.data n).map (scrubElem d.valid)).get ⟨i, by omega⟩ = some v
  rw [get_map_eq (scrubElem d.valid) (lastSlice d.data n) i (by omega) hilt,
    hval, scrubElem, hvr, is_valid_of_in_range lo hi v h1 h2]
  simp

/-- C3 witness: the pressure series has valid range (260, 1260); the in-range
sample 1000 at index 0 is returned unchanged by prep_data. -/
theorem C3_witness :
    ∃ h2 : 0 < (prep_data ⟨[some 1000], some (some 260, some 1260), "hPa",
        "Pressure", [250, 650, 1013, 1015]⟩ 3).data.length,
      (prep_data ⟨[some 1000], some (some 260, some 1260), "hPa",
        "Pressure", [250, 650, 1013, 1015]⟩ 3).data.get ⟨0, h2⟩ = some 1000 :=
  C3_prep_data_identity_in_range
    ⟨[some 1000], some (some 260, some 1260), "hPa", "Pressure",
      [250, 650, 1013, 1015]⟩ 3 0 260 1260 1000 rfl (by decide) (by decide)
    (by norm_num) (by norm_num)

/-- C8: prep_data builds a fresh DataUnit and carries the valid, unit, label
and limits fields of the input over unchanged; the input itself is a value in
this embedding (the Python code copies the data list before filtering and
never writes to the input), so only the returned copy is scrubbed. -/
theorem C8_prep_data_preserves_fields (d : DataUnit) (n : ℕ) :
    (prep_data d n).valid = d.valid ∧
    (prep_data d n).unit = d.unit ∧
    (prep_data d n).label = d.label ∧
    (prep_data d n).limits = d.limits :=
  ⟨rfl, rfl, rfl, rfl⟩

/-- C10: with the default lenSlice = 0 prep_data returns the whole series
(the Python slice [-0:] is the whole list), and with positive lenSlice the
returned data list has length min(lenSlice, len(inData.data)). -/
theorem C10_prep_data_slice_length (d : DataUnit) (n : ℕ) :
    (prep_data d 0).data.length = d.data.length ∧
    (0 < n → (prep_data d n).data.length = min n d.data.length) := by
  constructor
  · rw [prep_data_data_eq, List.length_map, lastSlice]; simp
  · intro hn
    rw [prep_data_data_eq, List.length_map, lastSlice]
    have : ¬ n = 0 := by omega
    simp only [this, if_false, List.length_drop]
    omega

/-- C10 witness: a three-sample series sliced with lenSlice = 2 yields a data
list of length min 2 3 = 2. -/
theorem C10_witness :
    (prep_data ⟨[some 1, some 2, some 3], none, "u", "L", []⟩ 2).data.length
      = min 2 3 :=
  (C10_prep_data_slice_length
    ⟨[some 1, some 2, some 3], none, "u", "L", []⟩ 2).2 (by norm_num)

/-- The filled-bar width computed by Enviro.display_progress:
x = int(max(min(float(inFrctn), 1.0), 0.0) * displWidth). -/
def display_progress_x (inFrctn : ℚ) (displWidth : ℕ) : ℤ :=
  pyInt (max (min inFrctn 1) 0 * (displWidth : ℚ))

/-- C4: display_progress clamps the incoming fraction to [0.0, 1.0] before
scaling it to pixel width, so the filled bar width equals
int(clamp(inFrctn, 0.0, 1.0) * displayWidth) and always lies between 0 and
displayWidth inclusive, for every rational input fraction. -/
theorem C4_display_progress_clamped (f : ℚ) (w : ℕ) :
    display_progress_x f w = pyInt (max (min f 1) 0 * (w : ℚ)) ∧
    0 ≤ display_progress_x f w ∧ display_progress_x f w ≤ (w : ℤ) := by
  have h0 : (0 : ℚ) ≤ max (min f 1) 0 * (w : ℚ) :=
    mul_nonneg (le_max_right _ _) (by positivity)
  refine ⟨rfl, ?_, ?_⟩
  · simp only [display_progress_x, pyInt, if_pos h0]
    exact Int.floor_nonneg.mpr h0
  · have hle : max (min f 1) 0 ≤ 1 := max_le (min_le_right _ _) (by norm_num)
    have h1 : max (min f 1) 0 * (w : ℚ) ≤ (w : ℚ) := by
      calc max (min f 1) 0 * (w : ℚ) ≤ 1 * (w : ℚ) :=
            mul_le_mul_of_nonneg_right hle (by positivity)
        _ = (w : ℚ) := one_mul _
    simp only [display_progress_x, pyInt, if_pos h0]
    have h2 : ⌊max (min f 1) 0 * (w : ℚ)⌋ ≤ ⌊(w : ℚ)⌋ := Int.floor_mono h1
    simpa using h2

/-- Enviro._clamp: min(max(float(minVal), float(val)), float(maxVal)). -/
def _clamp (val minVal maxVal : ℚ) : ℚ :=
  min (max minVal val) maxVal

/-- Enviro._scale: 0 when minMax is None or degenerate, else linear scaling
of val into a band of the given height. -/
def _scale (val : ℚ) (minMax : Option (ℚ × ℚ)) (height : ℚ) : ℚ :=
  match minMax with
  | none => 0
  | some mm => if mm.2 = mm.1 then 0 else (val - mm.1) / (mm.2 - mm.1) * height

/-- Pixel height computed for one value in Enviro.display_as_graph:
int(self._clamp(self._scale(v, (vMin, vMax), yMax), yMin, yMax)). -/
def fitted_height (v vMin vMax : ℚ) (yMin yMax : ℤ) : ℤ :=
  pyInt (_clamp (_scale v (some (vMin, vMax)) (yMax : ℚ)) (yMin : ℚ) (yMax : ℚ))

theorem clamp_scale_bounds (v vMin vMax : ℚ) (yMin yMax : ℤ)
    (hyy : yMin ≤ yMax) :
    (yMin : ℚ) ≤ _clamp (_scale v (some (vMin, vMax)) (yMax : ℚ)) yMin yMax ∧
    _clamp (_scale v (some (vMin, vMax)) (yMax : ℚ)) yMin yMax ≤ (yMax : ℚ) := by
  constructor
  · exact le_min (le_max_left _ _) (by exact_mod_cast hyy)
  · exact min_le_right _ _

/-- C5: the value-to-pixel mapping of display_as_graph is monotonically
non-decreasing when minMax is a proper range, and every fitted pixel height
lies in the pixel band [yMin, yMax] (with 0 <= yMin <= yMax, as holds for the
code where yMin is the 21 px top bar and yMax the remaining display height). -/
theorem C5_fitted_monotone_and_bounded (v1 v2 vMin vMax : ℚ) (yMin yMax : ℤ)
    (hmm : vMin < vMax) (hy0 : 0 ≤ yMin) (hyy : yMin ≤ yMax) (hv : v1 ≤ v2) :
    fitted_height v1 vMin vMax yMin yMax ≤ fitted_height v2 vMin vMax yMin yMax ∧
    yMin ≤ fitted_height v1 vMin vMax yMin yMax ∧
    fitted_height v1 vMin vMax yMin yMax ≤ yMax := by
  have hyQ : (0 : ℚ) ≤ (yMax : ℚ) := by exact_mod_cast hy0.trans hyy
  have hD : (0 : ℚ) < vMax - vMin := by linarith
  have hs : _scale v1 (some (vMin, vMax)) (yMax : ℚ)
      ≤ _scale v2 (some (vMin, vMax)) (yMax : ℚ) := by
    have hne : ¬ vMax = vMin := by intro h; rw [h] at hmm; exact lt_irrefl _ hmm
    simp only [_scale, hne, if_false]
    exact mul_le_mul_of_nonneg_right
      ((div_le_div_iff_of_pos_right hD).mpr (by linarith)) hyQ
  have hb1 := clamp_scale_bounds v1 vMin vMax yMin yMax hyy
  have hb2 := clamp_scale_bounds v2 vMin vMax yMin yMax hyy
  have hc1 : (0 : ℚ) ≤ _clamp (_scale v1 (some (vMin, vMax)) (yMax : ℚ)) yMin yMax := by
    have : (0 : ℚ) ≤ (yMin : ℚ) := by exact_mod_cast hy0
    linarith [hb1.1]
  have hc2 : (0 : ℚ) ≤ _clamp (_scale v2 (some (vMin, vMax)) (yMax : ℚ)) yMin yMax := by
    have : (0 : ℚ) ≤ (yMin : ℚ) := by exact_mod_cast hy0
    linarith [hb2.1]
  have hcm : _clamp (_scale v1 (some (vMin, vMax)) (yMax : ℚ)) yMin yMax
      ≤ _clamp (_scale v2 (some (vMin, vMax)) (yMax : ℚ)) yMin yMax :=
    min_le_min (max_le_max le_rfl hs) le_rfl
  refine ⟨?_, ?_, ?_⟩
  · simp only [fitted_height, pyInt, if_pos hc1, if_pos hc2]
    exact Int.floor_mono hcm
  · simp only [fitted_height, pyInt, if_pos hc1]
    exact Int.le_floor.mpr hb1.1
  · simp only [fitted_height, pyInt, if_pos hc1]
    have h2 : ⌊_clamp (_scale v1 (some (vMin, vMax)) (yMax : ℚ)) yMin yMax⌋
        ≤ ⌊(yMax : ℚ)⌋ := Int.floor_mono hb1.2
    simpa using h2

/-- C5 witness: with value range (0, 10) and the pixel band [21, 57] used by
the code, the heights fitted for the samples 3 and 5 are ordered and the
height fitted for 3 lies within the band. -/
theorem C5_witness :
    fitted_height 3 0 10 21 57 ≤ fitted_height 5 0 10 21 57 ∧
    21 ≤ fitted_height 3 0 10 21 57 ∧ fitted_height 3 0 10 21 57 ≤ 57 :=
  C5_fitted_monotone_and_bounded 3 5 0 10 21 57 (by norm_num) (by norm_num)
    (by norm_num) (by norm_num)

/-- Round to the nearest integer with ties going to the even integer, the
behaviour of the Python built-in round on exactly representable values. -/
def roundHalfEven (q : ℚ) : ℤ :=
  if q - ⌊q⌋ < 1/2 then ⌊q⌋
  else if 1/2 < q - ⌊q⌋ then ⌊q⌋ + 1
  else if ⌊q⌋ % 2 = 0 then ⌊q⌋ else ⌊q⌋ + 1

/-- Python round(x, 1): round to one decimal digit. -/
def pyRound1 (q : ℚ) : ℚ :=
  (roundHalfEven (q * 10) : ℚ) / 10

/-- Color map named tuple consumed by Enviro._get_rgb_from_map, as produced
by get_tri_colors in the f451 Labs Common library: fields low, normal, high
holding RGB triples. -/
structure ColorMap where
  low : ℕ × ℕ × ℕ
  normal : ℕ × ℕ × ℕ
  high : ℕ × ℕ × ℕ
deriving DecidableEq

/-- Enviro._get_rgb_from_map: high when val > round(limits[2], 1), low when
val <= round(limits[1], 1), else normal. The Python code indexes limits[1]
and limits[2] directly; we use getD with default 0, and every claim supplies
a 4-element limits list so the default is never taken. -/
def _get_rgb_from_map (val : ℚ) (limits : List ℚ) (colorMap : ColorMap) :
    ℕ × ℕ × ℕ :=
  if pyRound1 (limits.getD 2 0) < val then colorMap.high
  else if val ≤ pyRound1 (limits.getD 1 0) then colorMap.low
  else colorMap.normal

/-- The slots low, normal, high of COLOR_PALETTE in enviro.py:
cyan, green, yellow. -/
def triColors : ColorMap :=
  { low := (0, 255, 255), normal := (0, 255, 0), high := (255, 255, 0) }

theorem roundHalfEven_of_floor (q : ℚ) (n : ℤ) (h1 : (n : ℚ) ≤ q)
    (h2 : q < n + 1) :
    roundHalfEven q =
      if q - n < 1/2 then n
      else if 1/2 < q - (n : ℚ) then n + 1
      else if n % 2 = 0 then n else n + 1 := by
  have hf : ⌊q⌋ = n := Int.floor_eq_iff.mpr ⟨h1, h2⟩
  unfold roundHalfEven
  rw [hf]

theorem pyRound1_2526_div_100 : pyRound1 ((2526 : ℚ)/100) = 253/10 := by
  unfold pyRound1
  rw [roundHalfEven_of_floor ((2526 : ℚ)/100 * 10) 252 (by norm_num) (by norm_num)]
  norm_num

theorem pyRound1_two : pyRound1 (2 : ℚ) = 2 := by
  unfold pyRound1
  rw [roundHalfEven_of_floor ((2 : ℚ) * 10) 20 (by norm_num) (by norm_num)]
  norm_num

/-- C2 counterexample: with the ordered threshold list [1, 2, 25.26, 30] the
value 25.28 is strictly above limits[2] = 25.26, yet _get_rgb_from_map
returns the normal band color, not the high one, because the code compares
against round(limits[2], 1) = 25.3 and 25.28 <= 25.3. -/
theorem C2_counterexample :
    ((1 : ℚ) ≤ 2 ∧ (2 : ℚ) ≤ 2526/100 ∧ (2526/100 : ℚ) ≤ 30) ∧
    (2526/100 : ℚ) < 2528/100 ∧
    _get_rgb_from_map (2528/100) [1, 2, 2526/100, 30] triColors
      = triColors.normal ∧
    triColors.normal ≠ triColors.high := by
  refine ⟨by norm_num, by norm_num, ?_, by decide⟩
  show (if pyRound1 ((2526 : ℚ)/100) < 2528/100 then triColors.high
    else if (2528/100 : ℚ) ≤ pyRound1 2 then triColors.low
    else triColors.normal) = triColors.normal
  rw [pyRound1_2526_div_100, pyRound1_two]
  norm_num

/-- C2 (amended): color-band selection is monotonic with respect to the
threshold rounded to one decimal: for every ordered 4-element threshold list,
any value strictly above round(limits[2], 1) maps to the high band color and
never to the normal or low one; when limits[2] is already at one-decimal
precision this is exactly any value strictly above limits[2]. -/
theorem C2_high_band_above_rounded_threshold (val l0 l1 l2 l3 : ℚ)
    (cm : ColorMap) (h : pyRound1 l2 < val) :
    _get_rgb_from_map val [l0, l1, l2, l3] cm = cm.high := by
  simp only [_get_rgb_from_map, List.getD]
  simp [h]

/-- C2 witness: with thresholds [4, 18, 25, 35] of the temperature series
(all at one-decimal precision) the value 25.1 strictly above 25 = limits[2]
maps to the high band color. -/
theorem pyRound1_25 : pyRound1 (25 : ℚ) = 25 := by
  unfold pyRound1
  rw [roundHalfEven_of_floor ((25 : ℚ) * 10) 250 (by norm_num) (by norm_num)]
  norm_num

theorem C2_witness :
    _get_rgb_from_map (251/10) [4, 18, 25, 35] triColors = triColors.high :=
  C2_high_band_above_rounded_threshold (251/10) 4 18 25 35 triColors
    (by rw [pyRound1_25]; norm_num)

/-- Outcome of one PMS5003.read() attempt. -/
inductive ReadResult where
  | ok (v : ℕ)
  | readTimeout
  | serialTimeout
deriving DecidableEq

/-- Errors that can escape Enviro.get_particles. -/
inductive PmsError where
  | enviroError
  | readTimeoutError
  | serialTimeoutError
deriving DecidableEq

/-- Enviro.get_particles: try one read; on a ReadTimeoutError sleep one
second, reset the device handle and read once more, with any error of that
second read propagating raw (handlers of a try statement do not catch
exceptions raised inside a sibling handler); a SerialTimeoutError on the
first read is re-raised as EnviroError. The two potential device reads are
passed in as explicit outcomes. -/
def get_particles (read1 read2 : ReadResult) : Except PmsError ℕ :=
  match read1 with
  | .ok v => .ok v
  | .serialTimeout => .error .enviroError
  | .readTimeout =>
    match read2 with
    | .ok v => .ok v
    | .readTimeout => .error .readTimeoutError
    | .serialTimeout => .error .serialTimeoutError

/-- C6: get_particles retries exactly once. It returns normally if and only
if the first read succeeds, or the first read hits a read timeout and the
retry read succeeds; an exception propagates to the caller if and only if the
retry read also fails or a serial timeout occurs; a first-read serial timeout
is raised as the custom EnviroError. -/
theorem C6_get_particles_single_retry (r1 r2 : ReadResult) :
    ((∃ v, get_particles r1 r2 = .ok v) ↔
      (∃ v, r1 = .ok v) ∨ (r1 = .readTimeout ∧ ∃ v, r2 = .ok v)) ∧
    ((∃ e, get_particles r1 r2 = .error e) ↔
      r1 = .serialTimeout ∨ (r1 = .readTimeout ∧ ∀ v, r2 ≠ .ok v)) ∧
    (r1 = .serialTimeout → get_particles r1 r2 = .error .enviroError) := by
  cases r1 <;> cases r2 <;>
    simp [get_particles]

/-- C6 witness: a first-read serial timeout surfaces as EnviroError even when
a retry would have succeeded. -/
theorem C6_witness :
    get_particles .serialTimeout (.ok 7) = .error .enviroError :=
  (C6_get_particles_single_retry .serialTimeout (.ok 7)).2.2 rfl

/-- A collections.deque with maxlen, modelled as the list of its elements:
deque([defVal] * maxLen, maxlen=maxLen). -/
def dequeInit (defVal : ℚ) (maxLen : ℕ) : List ℚ :=
  List.replicate maxLen defVal

/-- Appending to a deque with maxlen: the new element goes on the right and
elements are discarded from the left while the deque is over capacity. -/
def dequeAppend (maxLen : ℕ) (xs : List ℚ) (v : ℚ) : List ℚ :=
  (xs ++ [v]).drop ((xs ++ [v]).length - maxLen)

/-- EnviroObject from enviro_data.py: a deque of data points plus valid
range, unit, limits and label. -/
structure EnviroObject where
  data : List ℚ
  valid : Option ℚ × Option ℚ
  unit : String
  limits : List ℚ
  label : String

/-- EnviroData from enviro_data.py: the ten sensor series. -/
structure EnviroData where
  temperature : EnviroObject
  pressure : EnviroObject
  humidity : EnviroObject
  light : EnviroObject
  oxidised : EnviroObject
  reduced : EnviroObject
  nh3 : EnviroObject
  pm1 : EnviroObject
  pm25 : EnviroObject
  pm10 : EnviroObject

/-- EnviroData.__init__(defVal, maxLen): every series is created with a
deque pre-filled with maxLen copies of defVal, and the ranges, units, limits
and labels written in the source. -/
def EnviroData.init (defVal : ℚ) (maxLen : ℕ) : EnviroData where
  temperature :=
    ⟨dequeInit defVal maxLen, (some 0, some 65), "C", [4, 18, 25, 35], "Temperature"⟩
  pressure :=
    ⟨dequeInit defVal maxLen, (some 260, some 1260), "hPa",
      [250, 650, 101325/100, 1015], "Pressure"⟩
  humidity :=
    ⟨dequeInit defVal maxLen, (some 0, some 100), "%", [20, 30, 60, 70], "Humidity"⟩
  light :=
    ⟨dequeInit defVal maxLen, (none, none), "Lux", [-1, -1, 30000, 100000], "Light"⟩
  oxidised :=
    ⟨dequeInit defVal maxLen, (none, none), "kO", [-1, -1, 40, 50], "Oxidized"⟩
  reduced :=
    ⟨dequeInit defVal maxLen, (none, none), "kO", [-1, -1, 450, 550], "Reduced"⟩
  nh3 :=
    ⟨dequeInit defVal maxLen, (none, none), "kO", [-1, -1, 200, 300], "NH3"⟩
  pm1 :=
    ⟨dequeInit defVal maxLen, (none, none), "ug/m3", [-1, -1, 50, 100], "PM1"⟩
  pm25 :=
    ⟨dequeInit defVal maxLen, (none, none), "ug/m3", [-1, -1, 50, 100], "PM25"⟩
  pm10 :=
    ⟨dequeInit defVal maxLen, (none, none), "ug/m3", [-1, -1, 50, 100], "PM10"⟩

/-- DemoData from en_demo_data.py: the two demo series. -/
structure DemoData where
  rndnum : EnviroObject
  rndpcnt : EnviroObject

/-- DemoData.__init__(defVal, maxLen). -/
def DemoData.init (defVal : ℚ) (maxLen : ℕ) : DemoData where
  rndnum :=
    ⟨dequeInit defVal maxLen, (some 45, some 155), "km/h", [55, 85, 115, 145], "Speed"⟩
  rndpcnt :=
    ⟨dequeInit defVal maxLen, (some 0, some 100), "%", [10, 30, 70, 90], "Pcnt"⟩

/-- C7: every series created by EnviroData (and DemoData) has a data window
whose length equals maxLen at construction, pre-filled with the default
value; appending a sample to a full window keeps the length at exactly
maxLen and, when maxLen is positive, discards the oldest sample. -/
theorem C7_window_length_fixed (defVal v : ℚ) (maxLen : ℕ) (xs : List ℚ)
    (hfull : xs.length = maxLen) :
    (EnviroData.init defVal maxLen).temperature.data.length = maxLen ∧
    (EnviroData.init defVal maxLen).pressure.data.length = maxLen ∧
    (EnviroData.init defVal maxLen).humidity.data.length = maxLen ∧
    (EnviroData.init defVal maxLen).light.data.length = maxLen ∧
    (EnviroData.init defVal maxLen).oxidised.data.length = maxLen ∧
    (EnviroData.init defVal maxLen).reduced.data.length = maxLen ∧
    (EnviroData.init defVal maxLen).nh3.data.length = maxLen ∧
    (EnviroData.init defVal maxLen).pm1.data.length = maxLen ∧
    (EnviroData.init defVal maxLen).pm25.data.length = maxLen ∧
    (EnviroData.init defVal maxLen).pm10.data.length = maxLen ∧
    (DemoData.init defVal maxLen).rndnum.data.length = maxLen ∧
    (DemoData.init defVal maxLen).rndpcnt.data.length = maxLen ∧
    (EnviroData.init defVal maxLen).temperature.data
      = List.replicate maxLen defVal ∧
    (dequeAppend maxLen xs v).length = maxLen ∧
    (0 < maxLen → dequeAppend maxLen xs v = xs.tail ++ [v]) := by
  refine ⟨?_, ?_, ?_, ?_, ?_, ?_, ?_, ?_, ?_, ?_, ?_, ?_, rfl, ?_, ?_⟩
  all_goals first
  | exact List.length_replicate _ _
  | skip
  · unfold dequeAppend
    rw [List.length_drop, List.length_append]
    simp [hfull]
  · intro hpos
    unfold dequeAppend
    rw [List.length_append, hfull]
    have h1 : maxLen + [v].length - maxLen = 1 := by simp
    rw [h1]
    cases xs with
    | nil => simp at hfull; omega
    | cons a as => simp

/-- C7 witness: a window of length 3 created with default 0 stays at length
3 after appending 9, and the oldest sample is discarded. -/
theorem C7_witness :
    (dequeAppend 3 [1, 2, 4] 9).length = 3 ∧
    (dequeAppend 3 [1, 2, 4] 9 = [2, 4, 9]) := by
  have h := C7_window_length_fixed 0 9 3 [1, 2, 4] (by decide)
  refine ⟨h.2.2.2.2.2.2.2.2.2.2.2.2.2.1, ?_⟩
  have h2 := h.2.2.2.2.2.2.2.2.2.2.2.2.2.2 (by norm_num)
  rw [h2]
  rfl

/-- Name of the sparkles view, DISPL_SPARKLE in enviro.py. -/
def DISPL_SPARKLE : String := "sparkles"

/-- The display-mode part of the state of an Enviro instance: the registered
view names, the current view, and the sleep flag. -/
structure DisplState where
  displayModes : List String
  displMode : String
  displSleepMode : Bool

/-- Display-mode state established by Enviro.__init__: the mode list is
[DISPL_SPARKLE] and the current mode is DISPL_SPARKLE. -/
def initDisplState : DisplState where
  displayModes := [DISPL_SPARKLE]
  displMode := DISPL_SPARKLE
  displSleepMode := false

/-- Enviro.add_displ_modes: combine the two lists and deduplicate. The
Python code goes through list(set(...)), whose iteration order is
unspecified; we keep the first occurrence of each name, which has the same
membership semantics. A single string argument is wrapped by the Python code
into a one-item list before this step. -/
def add_displ_modes (st : DisplState) (modes : List String) : DisplState :=
  { st with displayModes := (st.displayModes ++ modes).dedup }

/-- Argument accepted by Enviro.set_display_mode: a view name or a signed
direction. -/
inductive ModeArg where
  | str (s : String)
  | int (n : ℤ)

/-- The wrapped index computed by the integer branch of set_display_mode:
displMax = max(0, len - 1); the index of the current mode moves one step
down when the argument is negative and one step up otherwise, then wraps to
0 above displMax and to displMax below 0. -/
def next_mode_index (len idx : ℕ) (n : ℤ) : ℤ :=
  let displMax : ℤ := max 0 ((len : ℤ) - 1)
  let newModeIndx : ℤ := (idx : ℤ) + (if n < 0 then -1 else 1)
  if displMax < newModeIndx then 0
  else if newModeIndx < 0 then displMax
  else newModeIndx

/-- Enviro.set_display_mode: a registered view name selects that view, an
unrecognized name falls back to the sparkles view, and an integer steps to
the next or previous registered view with wrap-around at both ends. The
Python code indexes the mode list with the wrapped index; we use getD with
the sparkles default, and the index is in range whenever the current mode is
registered. The method also wakes the display, so the sleep flag ends up
false. -/
def set_display_mode (st : DisplState) (mode : ModeArg) : DisplState :=
  let newMode :=
    match mode with
    | .str s => if st.displayModes.contains s then s else DISPL_SPARKLE
    | .int n =>
      st.displayModes.getD
        (next_mode_index st.displayModes.length
          (st.displayModes.indexOf st.displMode) n).toNat
        DISPL_SPARKLE
  { st with displMode := newMode, displSleepMode := false }

theorem next_mode_index_toNat_mod (len idx : ℕ) (n : ℤ) (h1 : idx < len) :
    (next_mode_index len idx n).toNat
      = (idx + (if n < 0 then len - 1 else 1)) % len := by
  unfold next_mode_index
  by_cases hn : n < 0
  · simp only [if_pos hn]
    by_cases h0 : idx = 0
    · rw [if_neg (by omega), if_pos (by omega), h0,
        Nat.mod_eq_of_lt (by omega)]
      omega
    · rw [if_neg (by omega), if_neg (by omega),
        show idx + (len - 1) = (idx - 1) + len from by omega,
        Nat.add_mod_right, Nat.mod_eq_of_lt (by omega)]
      omega
  · simp only [if_neg hn]
    by_cases h0 : idx + 1 = len
    · rw [if_pos (by omega), h0, Nat.mod_self]
      rfl
    · rw [if_neg (by omega), if_neg (by omega),
        Nat.mod_eq_of_lt (by omega)]
      omega

theorem set_display_mode_int_eq (st : DisplState) (n : ℤ)
    (hmem : st.displMode ∈ st.displayModes) :
    (set_display_mode st (.int n)).displMode
      = st.displayModes.getD
          ((st.displayModes.indexOf st.displMode
              + (if n < 0 then st.displayModes.length - 1 else 1))
            % st.displayModes.length)
          DISPL_SPARKLE := by
  have hidx : st.displayModes.indexOf st.displMode < st.displayModes.length :=
    List.indexOf_lt_length.mpr hmem
  show st.displayModes.getD
      (next_mode_index st.displayModes.length
        (st.displayModes.indexOf st.displMode) n).toNat DISPL_SPARKLE = _
  rw [next_mode_index_toNat_mod _ _ _ hidx]

/-- C9: for every Enviro state that satisfies the class invariant (the
sparkles view is registered and the current view is registered, as
established by the constructor and preserved by every method), the current
view stays a member of the registered set after any set_display_mode call
and after any add_displ_modes call; an unrecognized string argument resets
the view to sparkles; and an integer argument steps to the next registered
view (non-negative argument) or the previous one (negative argument), the
index wrapping around modulo the number of registered views. -/
theorem C9_display_mode_selected_from_registered (st : DisplState)
    (arg : ModeArg) (newModes : List String)
    (hsp : DISPL_SPARKLE ∈ st.displayModes)
    (hmem : st.displMode ∈ st.displayModes) :
    (set_display_mode st arg).displMode
      ∈ (set_display_mode st arg).displayModes ∧
    (add_displ_modes st newModes).displMode
      ∈ (add_displ_modes st newModes).displayModes ∧
    (∀ s, s ∉ st.displayModes
      → (set_display_mode st (.str s)).displMode = DISPL_SPARKLE) ∧
    (∀ n : ℤ, 0 ≤ n → (set_display_mode st (.int n)).displMode
      = st.displayModes.getD
          ((st.displayModes.indexOf st.displMode + 1) % st.displayModes.length)
          DISPL_SPARKLE) ∧
    (∀ n : ℤ, n < 0 → (set_display_mode st (.int n)).displMode
      = st.displayModes.getD
          ((st.displayModes.indexOf st.displMode
              + (st.displayModes.length - 1)) % st.displayModes.length)
          DISPL_SPARKLE) ∧
    (DISPL_SPARKLE ∈ initDisplState.displayModes
      ∧ initDisplState.displMode ∈ initDisplState.displayModes) ∧
    DISPL_SPARKLE ∈ (set_display_mode st arg).displayModes ∧
    DISPL_SPARKLE ∈ (add_displ_modes st newModes).displayModes := by
  have hlen : 0 < st.displayModes.length :=
    List.length_pos.mpr (List.ne_nil_of_mem hmem)
  have hint : ∀ n : ℤ, (set_display_mode st (.int n)).displMode
      ∈ st.displayModes := by
    intro n
    rw [set_display_mode_int_eq st n hmem]
    have hlt : (st.displayModes.indexOf st.displMode
        + (if n < 0 then st.displayModes.length - 1 else 1))
        % st.displayModes.length < st.displayModes.length :=
      Nat.mod_lt _ hlen
    rw [List.getD_eq_getElem _ _ hlt]
    exact List.getElem_mem hlt
  refine ⟨?_, ?_, ?_, ?_, ?_, ⟨List.Mem.head _, List.Mem.head _⟩, hsp,
    List.mem_dedup.mpr (List.mem_append_left _ hsp)⟩
  · cases arg with
    | str s =>
      show (if st.displayModes.contains s then s else DISPL_SPARKLE)
        ∈ st.displayModes
      by_cases hc : st.displayModes.contains s = true
      · rw [if_pos hc]; simpa using hc
      · rw [if_neg hc]; exact hsp
    | int n => exact hint n
  · show st.displMode ∈ (st.displayModes ++ newModes).dedup
    exact List.mem_dedup.mpr (List.mem_append_left _ hmem)
  · intro s hs
    show (if st.displayModes.contains s then s else DISPL_SPARKLE)
      = DISPL_SPARKLE
    rw [if_neg (by simpa using hs)]
  · intro n hn
    rw [set_display_mode_int_eq st n hmem, if_neg (by omega)]
  · intro n hn
    rw [set_display_mode_int_eq st n hmem, if_pos hn]

/-- C9 witness: in a state with registered views [sparkles, text] currently
showing text, stepping forward wraps around to sparkles, which is still a
registered view. -/
theorem C9_witness :
    (set_display_mode ⟨["sparkles", "text"], "text", false⟩ (.int 1)).displMode
      ∈ (set_display_mode ⟨["sparkles", "text"], "text", false⟩
          (.int 1)).displayModes :=
  (C9_display_mode_selected_from_registered
    ⟨["sparkles", "text"], "text", false⟩ (.int 1) ["graph"]
    (List.Mem.head _)
    (List.Mem.tail _ (List.Mem.head _))).1

end F451Enviro
